import Mathlib

/-!
Verification development for the prosperity-3 trading repository.

Prices are modelled as rationals, positions and order quantities as integers.
Order books follow the exchange datamodel used by the strategy files:
`buy_orders` maps a price to a positive resting volume and `sell_orders`
maps a price to a negative resting volume, so the counterparty volume
available at the best ask is the negation of the stored value (the strategy
files all compute `-order_depth.sell_orders[best_ask]`).
-/

namespace Prosperity

/-- An order as in datamodel.Order: positive quantity = buy, negative = sell. -/
structure Order where
  product : String
  price : ℚ
  quantity : ℤ
deriving Repr, DecidableEq

/-- An order book side is a finite price-to-volume table, modelled as an
association list. -/
abbrev BookSide := List (ℚ × ℤ)

/-- An order depth as in datamodel.OrderDepth. -/
structure OrderDepth where
  buy_orders : BookSide
  sell_orders : BookSide
deriving Repr, DecidableEq

/-- Volume stored at price `p` (0 if the level is absent; the strategy code
only reads levels that exist). -/
def volAt (book : BookSide) (p : ℚ) : ℤ :=
  ((book.find? (fun pv => decide (pv.1 = p))).map Prod.snd).getD 0

/-- Maximum of a list of prices, `none` when empty (Python
`max(keys, default=None)`). -/
def pyMax? : List ℚ → Option ℚ
  | [] => none
  | x :: xs =>
    match pyMax? xs with
    | none => some x
    | some m => some (max x m)

/-- Minimum of a list of prices, `none` when empty (Python
`min(keys, default=None)`). -/
def pyMin? : List ℚ → Option ℚ
  | [] => none
  | x :: xs =>
    match pyMin? xs with
    | none => some x
    | some m => some (min x m)

/-- Best bid: `max(order_depth.buy_orders.keys(), default=None)`. -/
def bestBid (d : OrderDepth) : Option ℚ :=
  pyMax? (d.buy_orders.map Prod.fst)

/-- Best ask: `min(order_depth.sell_orders.keys(), default=None)`. -/
def bestAsk (d : OrderDepth) : Option ℚ :=
  pyMin? (d.sell_orders.map Prod.fst)

/-- Mid-price computation shared by all strategy files: `(bid+ask)/2` when
both sides exist, `ask*0.99` with asks only, `bid*1.01` with bids only,
undefined (product skipped) when the book is empty. -/
def midPrice (d : OrderDepth) : Option ℚ :=
  match bestBid d, bestAsk d with
  | some b, some a => some ((b + a) / 2)
  | none, some a => some (a * (99 / 100))
  | some b, none => some (b * (101 / 100))
  | none, none => none

/-- Association-list lookup, mirroring Python dict `get`. -/
def getA {α : Type} (m : List (String × α)) (k : String) : Option α :=
  (m.find? (fun kv => kv.1 == k)).map Prod.snd

/-- Association-list insert/overwrite, mirroring Python dict assignment
(existing key updated in place, otherwise appended). -/
def setA {α : Type} (m : List (String × α)) (k : String) (v : α) : List (String × α) :=
  if m.any (fun kv => kv.1 == k) then
    m.map (fun kv => if kv.1 == k then (k, v) else kv)
  else m ++ [(k, v)]

/-! ## RAINFOREST_RESIN mean-reversion rule
(tutorial_3.py lines 48-81 and cointegration.py lines 134-156; the two
files differ only in the smoothing constant alpha). -/

/-- Exponential smoothing of the historical mean:
`updated_mean = alpha * mid_price + (1 - alpha) * historical_mean`. -/
def updatedMean (alpha mid m : ℚ) : ℚ := alpha * mid + (1 - alpha) * m

/-- The order-emission part of the RAINFOREST_RESIN branch, as a function of
the historical mean read from trader data. Buy side first, then sell side,
exactly as the source appends them. -/
def resinOrders (histMean : ℚ) (maxPosition pos : ℤ) (d : OrderDepth) : List Order :=
  let availableBuy := maxPosition - pos
  let availableSell := maxPosition + pos
  let buys : List Order :=
    match bestAsk d with
    | some a =>
      if a < histMean ∧ 0 < availableBuy then
        let size := min availableBuy (-(volAt d.sell_orders a))
        if 0 < size then [⟨"RAINFOREST_RESIN", a, size⟩] else []
      else []
    | none => []
  let sells : List Order :=
    match bestBid d with
    | some b =>
      if histMean < b ∧ 0 < availableSell then
        let size := min availableSell (volAt d.buy_orders b)
        if 0 < size then [⟨"RAINFOREST_RESIN", b, -size⟩] else []
      else []
    | none => []
  buys ++ sells

/-- One tick of the RAINFOREST_RESIN branch: compute the mid-price (skip the
product when the book is empty), read the stored historical mean (defaulting
to the current mid), emit orders against the stored mean, and write back the
exponentially smoothed mean. -/
def resinStep (alpha : ℚ) (maxPosition : ℤ) (storedMean : Option ℚ) (pos : ℤ)
    (d : OrderDepth) : Option (List Order × ℚ) :=
  match midPrice d with
  | none => none
  | some mid =>
    let histMean := storedMean.getD mid
    some (resinOrders histMean maxPosition pos d, updatedMean alpha mid histMean)

/-- Snapshot of the C2 scenario: best bid 9998 (5 available), best ask 10002
(5 available, stored as -5 per the datamodel sign convention). -/
def resinBookFar : OrderDepth := ⟨[(9998, 5)], [(10002, -5)]⟩

/-- Same snapshot with the best ask moved to 9995. -/
def resinBookNear : OrderDepth := ⟨[(9998, 5)], [(9995, -5)]⟩

/-- Book used to discriminate decisions taken with the stored mean from
decisions taken with the freshly updated mean: bid 50 (5 available),
ask 99 (5 available). Its mid-price is 149/2. -/
def resinBookDiscr : OrderDepth := ⟨[(50, 5)], [(99, -5)]⟩

/-! ## Round 3 squid_ink.py: stable-pocket regime strategy -/

/-- Per-product persisted state of squid_ink.py. The `in_pocket` field is
stored every tick (and read back) but never consulted by the logic. -/
structure ProdData where
  price_history : List ℚ
  time_in_pocket : ℕ
  in_pocket : Prop

/-- `prices[-window:]` with Python slice semantics (a window of 0 keeps the
whole list, since `prices[-0:]` is `prices[0:]`). -/
def lastWindow (l : List ℚ) (window : ℕ) : List ℚ :=
  if window = 0 then l else l.drop (l.length - window)

/-- `np.mean`. -/
def listMean (l : List ℚ) : ℚ := l.sum / l.length

/-- Population variance, the square of `np.std`. -/
def listVar (l : List ℚ) : ℚ := ((l.map (fun x => (x - listMean l) ^ 2)).sum) / l.length

/-- `np.std`: population standard deviation. -/
noncomputable def listStd (l : List ℚ) : ℝ := Real.sqrt (listVar l)

/-- `prices[-1]` (the call sites guarantee a non-empty list). -/
def pyLast (l : List ℚ) : ℚ := l.getLastD 0

/-- is_in_stable_pocket from squid_ink.py: false when fewer than `window`
prices are recorded; otherwise the rolling standard deviation of the last
`window` prices must exceed `std_threshold` and the latest price must lie
within one rolling standard deviation of the rolling mean. -/
def is_in_stable_pocket (prices : List ℚ) (window : ℕ) (std_threshold : ℝ) : Prop :=
  if prices.length < window then False
  else
    std_threshold < listStd (lastWindow prices window) ∧
      |(pyLast prices : ℝ) - (listMean (lastWindow prices window) : ℝ)| <
        listStd (lastWindow prices window)

/-- Price history update of squid_ink.py: append the mid-price, then pop the
oldest entry once the history exceeds 200 entries. -/
def updatedHistory (pd : ProdData) (mid : ℚ) : List ℚ :=
  let h := pd.price_history ++ [mid]
  if 200 < h.length then h.tail else h

/-- Orders produced by squid_ink.py may carry a `None` price (the code can
build `Order(product, best_ask, ...)` when `best_ask` is absent), so the
price is an optional rational here. -/
structure SquidOrder where
  product : String
  price : Option ℚ
  quantity : ℤ

open Classical in
/-- One per-product iteration of squid_ink.Trader.run. The product is
skipped (`none`) when the book has neither bids nor asks. `orderSizeAt t`
abstracts `int(scale_factor * 10)`, the transition-risk scaled size at
pocket age `t` (its exact value goes through `np.exp` inside the error
function approximation and is irrelevant to the claims proved below). -/
noncomputable def squidStep (product : String) (orderSizeAt : ℕ → ℤ) (maxPosition : ℤ)
    (window : ℕ) (stdThreshold : ℝ) (pd : ProdData) (pos : ℤ) (d : OrderDepth) :
    Option (List SquidOrder × ProdData) :=
  match midPrice d with
  | none => none
  | some mid =>
    let history := updatedHistory pd mid
    let currentInPocket := is_in_stable_pocket history window stdThreshold
    let meanPrice : ℚ := if window ≤ history.length then listMean (lastWindow history window) else mid
    let stdPrice : ℝ := if window ≤ history.length then listStd (lastWindow history window) else 1
    let newTime : ℕ := if currentInPocket then pd.time_in_pocket + 1 else 0
    let orders : List SquidOrder :=
      if currentInPocket then
        let order_size := orderSizeAt newTime
        if (mid : ℝ) < (meanPrice : ℝ) - stdPrice ∧ pos < maxPosition then
          [⟨product, bestAsk d, min order_size (maxPosition - pos)⟩]
        else if (meanPrice : ℝ) + stdPrice < (mid : ℝ) ∧ -maxPosition < pos then
          [⟨product, bestBid d, -(min (orderSizeAt newTime) (pos + maxPosition))⟩]
        else []
      else
        if 0 < pos then [⟨product, bestBid d, -pos⟩]
        else if pos < 0 then [⟨product, bestAsk d, -pos⟩]
        else []
    some (orders, ⟨history, newTime, currentInPocket⟩)

open Classical in
/-- The product loop of squid_ink.Trader.run: fold over the order-depth
dictionary, skipping empty books, accumulating the per-product result and
the updated trader data. -/
noncomputable def squidRun (orderSizeAt : ℕ → ℤ) (maxPosition : ℤ) (window : ℕ)
    (stdThreshold : ℝ) (traderData : List (String × ProdData))
    (positions : List (String × ℤ)) (books : List (String × OrderDepth)) :
    List (String × List SquidOrder) × List (String × ProdData) :=
  books.foldl
    (fun acc pb =>
      let pd := (getA acc.2 pb.1).getD ⟨[], 0, False⟩
      let pos := (getA positions pb.1).getD 0
      match squidStep pb.1 orderSizeAt maxPosition window stdThreshold pd pos pb.2 with
      | none => acc
      | some (os, pd2) => (setA acc.1 pb.1 os, setA acc.2 pb.1 pd2))
    (([], traderData) : List (String × List SquidOrder) × List (String × ProdData))

/-! ## Round 2 picnic_basket_2.py: basket arbitrage -/

/-- POSITION_LIMITS of picnic_basket_2.py. -/
def POSITION_LIMITS : List (String × ℤ) :=
  [("CROISSANTS", 250), ("JAMS", 350), ("DJEMBES", 60),
   ("PICNIC_BASKET1", 60), ("PICNIC_BASKET2", 100)]

/-- Position limit of a product (only the five keys above are ever read). -/
def limitOf (p : String) : ℤ := (getA POSITION_LIMITS p).getD 0

/-- Loop state of picnic_basket_2.Trader.run: the result dictionary, the
mid-price dictionary, and the value of the Python loop variables
`product, orders` after the latest iteration (consumed by the trailing
`result[product] = orders` statement that sits after the loop). -/
structure PicnicAcc where
  result : List (String × List Order)
  mid_prices : List (String × ℚ)
  lastProduct : Option (String × List Order)

/-- One iteration of the picnic_basket_2 product loop. An empty book only
resets the loop variables (`continue` happens after `orders = []`).
Component products get an empty order list in `result`; PICNIC_BASKET1
sells the basket and rewrites the component entries with 6/3/1-weighted
buys when `mid - (6c + 3j + d) > 1`; PICNIC_BASKET2 buys the basket and
appends 4/2-weighted component sells when `(4c + 2j) - mid > 1`. All
capacities divide by the leg weight with Python floor division, and the
basket order is dropped when the best quote is absent or equal to 0
(Python truthiness of `best_bid` / `best_ask`). -/
def picnicStep (positions : List (String × ℤ)) (acc : PicnicAcc)
    (pb : String × OrderDepth) : PicnicAcc :=
  let product := pb.1
  let d := pb.2
  match midPrice d with
  | none => { acc with lastProduct := some (product, []) }
  | some mid =>
    let mids := setA acc.mid_prices product mid
    if product == "DJEMBES" || product == "CROISSANTS" || product == "JAMS" then
      { result := setA acc.result product [], mid_prices := mids,
        lastProduct := some (product, []) }
    else if product == "PICNIC_BASKET1" then
      match getA mids "CROISSANTS", getA mids "JAMS", getA mids "DJEMBES" with
      | some c, some j, some dj =>
        let fair_value := 6 * c + 3 * j + 1 * dj
        let profit := mid - fair_value
        if 1 < profit then
          let max_trades :=
            min (min (min (limitOf "PICNIC_BASKET1" - (getA positions "PICNIC_BASKET1").getD 0)
                          (Int.fdiv (limitOf "CROISSANTS" - (getA positions "CROISSANTS").getD 0) 6))
                     (Int.fdiv (limitOf "JAMS" - (getA positions "JAMS").getD 0) 3))
                (Int.fdiv (limitOf "DJEMBES" - (getA positions "DJEMBES").getD 0) 1)
          let orders : List Order :=
            match bestBid d with
            | some bb => if bb = 0 then [] else [⟨product, bb, -max_trades⟩]
            | none => []
          let r1 := setA acc.result "CROISSANTS" [⟨"CROISSANTS", c, 6 * max_trades⟩]
          let r2 := setA r1 "JAMS" [⟨"JAMS", j, 3 * max_trades⟩]
          let r3 := setA r2 "DJEMBES" [⟨"DJEMBES", dj, 1 * max_trades⟩]
          { result := r3, mid_prices := mids, lastProduct := some (product, orders) }
        else { acc with mid_prices := mids, lastProduct := some (product, []) }
      | _, _, _ => { acc with mid_prices := mids, lastProduct := some (product, []) }
    else if product == "PICNIC_BASKET2" then
      match getA mids "CROISSANTS", getA mids "JAMS" with
      | some c, some j =>
        let fair_value := 4 * c + 2 * j
        let profit := fair_value - mid
        if 1 < profit then
          let max_trades :=
            min (min (limitOf "PICNIC_BASKET2" - (getA positions "PICNIC_BASKET2").getD 0)
                     (Int.fdiv (limitOf "CROISSANTS" + (getA positions "CROISSANTS").getD 0) 4))
                (Int.fdiv (limitOf "JAMS" + (getA positions "JAMS").getD 0) 2)
          let orders : List Order :=
            match bestAsk d with
            | some ba => if ba = 0 then [] else [⟨product, ba, max_trades⟩]
            | none => []
          let r1 := setA acc.result "CROISSANTS"
            (((getA acc.result "CROISSANTS").getD []) ++ [⟨"CROISSANTS", c, -(4 * max_trades)⟩])
          let r2 := setA r1 "JAMS"
            (((getA r1 "JAMS").getD []) ++ [⟨"JAMS", j, -(2 * max_trades)⟩])
          { result := r2, mid_prices := mids, lastProduct := some (product, orders) }
        else { acc with mid_prices := mids, lastProduct := some (product, []) }
      | _, _ => { acc with mid_prices := mids, lastProduct := some (product, []) }
    else { acc with mid_prices := mids, lastProduct := some (product, []) }

/-- picnic_basket_2.Trader.run over the order-depth dictionary (iterated in
insertion order). The final `result[product] = orders` of the source sits
OUTSIDE the product loop, so after the fold it stores the orders of the
last iterated product only. -/
def picnicRun (positions : List (String × ℤ)) (books : List (String × OrderDepth)) :
    List (String × List Order) :=
  let acc := books.foldl (picnicStep positions) ⟨[], [], none⟩
  match acc.lastProduct with
  | some (p, os) => setA acc.result p os
  | none => acc.result

/-- Two-sided books used in the picnic evaluations: component mids 10, 20,
30 give a PICNIC_BASKET1 fair value of 150, and the basket book has mid 160
(profit 10 > 1). The PICNIC_BASKET2 book has mid 80, exactly its fair value
4*10 + 2*20 (profit 0, no basket-2 trade). -/
def croissantBook : OrderDepth := ⟨[(9, 5)], [(11, -5)]⟩

def jamBook : OrderDepth := ⟨[(19, 5)], [(21, -5)]⟩

def djembeBook : OrderDepth := ⟨[(29, 5)], [(31, -5)]⟩

def basket1Book : OrderDepth := ⟨[(159, 5)], [(161, -5)]⟩

def basket2Book : OrderDepth := ⟨[(79, 5)], [(81, -5)]⟩

/-- Snapshot with PICNIC_BASKET1 iterated last. -/
def picnicBooksB1Last : List (String × OrderDepth) :=
  [("CROISSANTS", croissantBook), ("JAMS", jamBook), ("DJEMBES", djembeBook),
   ("PICNIC_BASKET1", basket1Book)]

/-- Snapshot with PICNIC_BASKET2 after PICNIC_BASKET1. -/
def picnicBooksB2Last : List (String × OrderDepth) :=
  picnicBooksB1Last ++ [("PICNIC_BASKET2", basket2Book)]

/-- Ledger with the basket short at its configured limit and every other
position flat. -/
def picnicShortPositions : List (String × ℤ) := [("PICNIC_BASKET1", -60)]

/-! ## Round 1 tutorial_3.py: moving-average crossover branches -/

/-- Short/long price windows persisted for KELP and SQUID_INK. -/
structure MAData where
  short_prices : List ℚ
  long_prices : List ℚ
deriving Repr, DecidableEq

/-- Append then `if len(l) > n: l.pop(0)`. -/
def trimTo (n : ℕ) (l : List ℚ) : List ℚ :=
  if n < l.length then l.tail else l

/-- `sum(l) / len(l) if l else default`. -/
def maOf (l : List ℚ) (default : ℚ) : ℚ :=
  if l.isEmpty then default else l.sum / l.length

/-- The KELP branch of tutorial_3.Trader.run: bullish (short MA above long MA
beyond the relative threshold) buys at the best ask when the ask is below the
short MA and buy capacity remains; bearish sells at the best bid when the bid
is above the short MA and sell capacity remains. -/
def kelpStep (corrThreshold : ℚ) (maxPosition : ℤ) (md : MAData) (pos : ℤ)
    (d : OrderDepth) : Option (List Order × MAData) :=
  match midPrice d with
  | none => none
  | some mid =>
    let short_prices := trimTo 10 (md.short_prices ++ [mid])
    let long_prices := trimTo 50 (md.long_prices ++ [mid])
    let short_ma := maOf short_prices mid
    let long_ma := maOf long_prices mid
    let availableBuy := maxPosition - pos
    let availableSell := maxPosition + pos
    let orders : List Order :=
      if long_ma * (1 + corrThreshold) < short_ma then
        match bestAsk d with
        | some a =>
          if a < short_ma ∧ 0 < availableBuy then
            let size := min availableBuy (-(volAt d.sell_orders a))
            if 0 < size then [⟨"KELP", a, size⟩] else []
          else []
        | none => []
      else if short_ma < long_ma * (1 - corrThreshold) then
        match bestBid d with
        | some b =>
          if short_ma < b ∧ 0 < availableSell then
            let size := min availableSell (volAt d.buy_orders b)
            if 0 < size then [⟨"KELP", b, -size⟩] else []
          else []
        | none => []
      else []
    some (orders, ⟨short_prices, long_prices⟩)

/-- The SQUID_INK branch of tutorial_3.Trader.run. Its bullish branch tests
the best ask against the short MA and buy capacity (its comment reads
consider buying), but then sizes by sell capacity and bid-side volume and
appends a SELL at the best bid; the bearish branch symmetrically appends a
BUY at the best ask. When the guard of a branch passes while the opposite
side of the book is absent, the Python code raises a KeyError (the tick is
then aborted by the caller); that path is modelled as emitting no order and
is not exercised by any theorem below. -/
def squidInkStep (corrThreshold : ℚ) (maxPosition : ℤ) (md : MAData) (pos : ℤ)
    (d : OrderDepth) : Option (List Order × MAData) :=
  match midPrice d with
  | none => none
  | some mid =>
    let short_prices := trimTo 10 (md.short_prices ++ [mid])
    let long_prices := trimTo 50 (md.long_prices ++ [mid])
    let short_ma := maOf short_prices mid
    let long_ma := maOf long_prices mid
    let availableBuy := maxPosition - pos
    let availableSell := maxPosition + pos
    let orders : List Order :=
      if long_ma * (1 + corrThreshold) < short_ma then
        match bestAsk d with
        | some a =>
          if a < short_ma ∧ 0 < availableBuy then
            match bestBid d with
            | some b =>
              let size := min availableSell (volAt d.buy_orders b)
              if 0 < size then [⟨"SQUID_INK", b, -size⟩] else []
            | none => []
          else []
        | none => []
      else if short_ma < long_ma * (1 - corrThreshold) then
        match bestBid d with
        | some b =>
          if short_ma < b ∧ 0 < availableSell then
            match bestAsk d with
            | some a =>
              let size := min availableBuy (-(volAt d.sell_orders a))
              if 0 < size then [⟨"SQUID_INK", a, size⟩] else []
            | none => []
          else []
        | none => []
      else []
    some (orders, ⟨short_prices, long_prices⟩)

/-- Memory that puts the short MA well above the long MA after the next
observation. -/
def crossoverMemory : MAData := ⟨[120, 120], [100, 100]⟩

/-- Book with best bid 99 (5 available) and best ask 101 (5 available);
its mid-price 100 keeps the long MA at 100 while the short MA moves
to 340/3. -/
def crossoverBook : OrderDepth := ⟨[(99, 5)], [(101, -5)]⟩

/-! ## Round 1 cointegration.py: pair-spread z-score -/

/-- EWMA spread-mean update:
`new_spread_mean = alpha * spread + (1 - alpha) * spread_mean`. -/
def spread_mean_update (alpha spread m : ℚ) : ℚ := alpha * spread + (1 - alpha) * m

/-- EWMA spread-variance update (the freshly updated mean is used):
`new_spread_var = alpha * (spread - new_spread_mean)^2 + (1 - alpha) * spread_var`. -/
def spread_var_update (alpha spread newMean v : ℚ) : ℚ :=
  alpha * (spread - newMean) ^ 2 + (1 - alpha) * v

/-- The z-score divisor of cointegration.Trader.run:
`spread_std = new_spread_var ** 0.5 if new_spread_var > 0 else 1.0`. -/
noncomputable def spread_std (v : ℚ) : ℝ :=
  if 0 < v then Real.sqrt (v : ℝ) else 1

/-- `z_score = (spread - new_spread_mean) / spread_std`. -/
noncomputable def pair_z_score (spread newMean v : ℚ) : ℝ :=
  ((spread : ℝ) - (newMean : ℝ)) / spread_std v

/-- Trace of (spread_mean, spread_var) over ticks of one constant spread
`s`: tick 0 initialises the pair data to mean `s`, variance 0 (the source
default for an unseen pair key), and every later tick applies the two EWMA
updates. -/
def pair_trace (alpha s : ℚ) : ℕ → ℚ × ℚ
  | 0 => (s, 0)
  | n + 1 =>
    let p := pair_trace alpha s n
    let m := spread_mean_update alpha s p.1
    (m, spread_var_update alpha s m p.2)

/-! ## Back Testing/backtester.py: replay simulator -/

/-- The strategy-facing tick state (datamodel.TradingState restricted to the
fields the backtester fills with live data). -/
structure TradingState where
  timestamp : ℤ
  order_depths : List (String × OrderDepth)
  position : List (String × ℤ)
  traderData : String

/-- One row of trades_history, with every field recorded by execute_trades. -/
structure TradeRecord where
  timestamp : ℤ
  product : String
  quantity : ℤ
  price : ℚ
  cash_flow : ℚ
  position_value_change : ℚ
  pnl : ℚ
  position : ℤ
  market_price : ℚ

/-- Mutable simulator state of BaseBacktester across ticks. -/
structure SimState where
  current_position : List (String × ℤ)
  cash : ℚ
  trades_history : List TradeRecord
  pnl_history : List ℚ
  trader_data : String
  log : List String

/-- One historical tick group: its (day, timestamp) key and, per product,
the order depth built by create_order_depth together with the reference
mid_price column. -/
structure Tick where
  day : ℤ
  timestamp : ℤ
  rows : List (String × OrderDepth × ℚ)

/-- A strategy is the Trader.run call: it returns the per-product orders, a
conversions flag and the new trader-data string, or raises (Except.error). -/
def StratFn : Type :=
  TradingState → Except String (List (String × List Order) × ℤ × String)

/-- The log line of the per-tick exception handler. -/
def tickErrorMsg (day ts : ℤ) (e : String) : String :=
  "Error during trading at day " ++ toString day ++ ", timestamp " ++ toString ts ++ ": " ++ e

/-- The TradingState the backtester hands to the strategy on a tick. -/
def mkTickState (t : Tick) (s : SimState) : TradingState :=
  ⟨t.timestamp, t.rows.map (fun r => (r.1, r.2.1)), s.current_position, s.trader_data⟩

/-- Reference prices of a tick (`current_prices`). -/
def tickPrices (t : Tick) : List (String × ℚ) :=
  t.rows.map (fun r => (r.1, r.2.2))

/-- Process one order inside execute_trades. The position and cash mutations
happen first; if the reference price is missing the Python code then raises
a KeyError (signalled by `none`) with those mutations already applied, and
no trade record is written. -/
def execOrder (prices : List (String × ℚ)) (ts : ℤ) (product : String) (o : Order)
    (s : SimState) : SimState × Option ℚ :=
  let oldPosition := (getA s.current_position product).getD 0
  let newPosition := oldPosition + o.quantity
  let cashFlow := -(o.quantity : ℚ) * o.price
  let s1 := { s with current_position := setA s.current_position product newPosition,
                     cash := s.cash + cashFlow }
  match getA prices product with
  | none => (s1, none)
  | some market =>
    let pvc : ℚ :=
      if 0 < o.quantity then (market - o.price) * (o.quantity : ℚ)
      else -(market - o.price) * ((|o.quantity| : ℤ) : ℚ)
    ({ s1 with trades_history := s1.trades_history ++
        [⟨ts, product, o.quantity, o.price, cashFlow, pvc, pvc, newPosition, market⟩] },
     some pvc)

/-- Process the order list of one product, accumulating round PnL; a raised
KeyError aborts the remaining orders but keeps the mutations made so far. -/
def execOrdersList (prices : List (String × ℚ)) (ts : ℤ) (product : String) :
    List Order → SimState → ℚ → SimState × ℚ × Bool
  | [], s, acc => (s, acc, true)
  | o :: os, s, acc =>
    match execOrder prices ts product o s with
    | (s1, some pvc) => execOrdersList prices ts product os s1 (acc + pvc)
    | (s1, none) => (s1, acc, false)

/-- Process the whole orders dictionary. -/
def execProducts (prices : List (String × ℚ)) (ts : ℤ) :
    List (String × List Order) → SimState → ℚ → SimState × ℚ × Bool
  | [], s, acc => (s, acc, true)
  | (p, os) :: rest, s, acc =>
    match execOrdersList prices ts p os s acc with
    | (s1, acc1, true) => execProducts prices ts rest s1 acc1
    | (s1, acc1, false) => (s1, acc1, false)

/-- execute_trades: store the returned trader-data string (`normalize`
models the json.loads/json.dumps round trip of the external json library,
including its failure-to-empty-object fallback), then fill orders and
accumulate the round PnL. -/
def execute_trades (normalize : String → String) (prices : List (String × ℚ)) (ts : ℤ)
    (res : List (String × List Order) × ℤ × String) (s : SimState) :
    SimState × ℚ × Bool :=
  let s0 := { s with trader_data := normalize res.2.2 }
  execProducts prices ts res.1 s0 0

/-- One tick of BaseBacktester.run: build the TradingState, call the
strategy inside try/except, execute the returned orders and append the
round PnL; any exception is logged and the loop continues with the next
tick. -/
def runTick (strat : StratFn) (normalize : String → String) (s : SimState) (t : Tick) :
    SimState :=
  match strat (mkTickState t s) with
  | .error e => { s with log := s.log ++ [tickErrorMsg t.day t.timestamp e] }
  | .ok res =>
    match execute_trades normalize (tickPrices t) t.timestamp res s with
    | (s1, pnl, true) => { s1 with pnl_history := s1.pnl_history ++ [pnl] }
    | (s1, _, false) => { s1 with log := s1.log ++ [tickErrorMsg t.day t.timestamp "KeyError"] }

/-- The replay loop of BaseBacktester.run over the chronologically grouped
ticks. Every input the loop reads is an explicit argument: the embedded
replay has no other source of data, which is what makes two runs over the
same input identical. -/
def runSim (strat : StratFn) (normalize : String → String) (ticks : List Tick)
    (s : SimState) : SimState :=
  ticks.foldl (runTick strat normalize) s

/-- A strategy that raises on every tick. -/
def alwaysRaise : StratFn := fun _ => .error "boom"

/-- A small concrete simulator state used by witnesses. -/
def simState0 : SimState := ⟨[("KELP", 0)], 0, [], [], "x", []⟩

/-- A small concrete tick used by witnesses. -/
def tick0 : Tick := ⟨0, 100, [("KELP", crossoverBook, 100)]⟩

/-- Book with asks only. -/
def askOnlyBook : OrderDepth := ⟨[], [(11, -5)]⟩

/-- Book with bids only. -/
def bidOnlyBook : OrderDepth := ⟨[(9, 5)], []⟩

/-- Book with neither bids nor asks. -/
def emptyBook : OrderDepth := ⟨[], []⟩

/-! ## Helper lemmas -/

theorem getA_nil {α : Type} (k : String) : getA ([] : List (String × α)) k = none := rfl

theorem getA_cons {α : Type} (p : String × α) (m : List (String × α)) (k : String) :
    getA (p :: m) k = if p.1 == k then some p.2 else getA m k := by
  simp only [getA, List.find?]
  by_cases h : p.1 == k <;> simp [h]

theorem volAt_nil (p : ℚ) : volAt [] p = 0 := rfl

theorem volAt_cons (pv : ℚ × ℤ) (book : BookSide) (p : ℚ) :
    volAt (pv :: book) p = if pv.1 = p then pv.2 else volAt book p := by
  by_cases h : pv.1 = p <;> simp [volAt, List.find?, h]

theorem picnicFoldCJD (positions : List (String × ℤ)) :
    List.foldl (picnicStep positions) ⟨[], [], none⟩
      [("CROISSANTS", croissantBook), ("JAMS", jamBook), ("DJEMBES", djembeBook)] =
    ⟨[("CROISSANTS", []), ("JAMS", []), ("DJEMBES", [])],
     [("CROISSANTS", 10), ("JAMS", 20), ("DJEMBES", 30)], some ("DJEMBES", [])⟩ := by
  simp [picnicStep, midPrice, bestBid, bestAsk, pyMax?, pyMin?, setA,
    croissantBook, jamBook, djembeBook]
  norm_num

theorem picnicStepB1short :
    picnicStep picnicShortPositions
      ⟨[("CROISSANTS", []), ("JAMS", []), ("DJEMBES", [])],
       [("CROISSANTS", 10), ("JAMS", 20), ("DJEMBES", 30)], some ("DJEMBES", [])⟩
      ("PICNIC_BASKET1", basket1Book) =
    ⟨[("CROISSANTS", [⟨"CROISSANTS", 10, 246⟩]), ("JAMS", [⟨"JAMS", 20, 123⟩]),
      ("DJEMBES", [⟨"DJEMBES", 30, 41⟩])],
     [("CROISSANTS", 10), ("JAMS", 20), ("DJEMBES", 30), ("PICNIC_BASKET1", 160)],
     some ("PICNIC_BASKET1", [⟨"PICNIC_BASKET1", 159, -41⟩])⟩ := by
  simp [picnicStep, midPrice, bestBid, bestAsk, pyMax?, pyMin?, setA,
    getA_nil, getA_cons, basket1Book, limitOf, POSITION_LIMITS, picnicShortPositions]
  norm_num [min_def, (by decide : Int.fdiv 250 6 = 41), (by decide : Int.fdiv 350 3 = 116),
    (by decide : Int.fdiv 60 1 = 60)]

theorem picnicStepB1zero :
    picnicStep []
      ⟨[("CROISSANTS", []), ("JAMS", []), ("DJEMBES", [])],
       [("CROISSANTS", 10), ("JAMS", 20), ("DJEMBES", 30)], some ("DJEMBES", [])⟩
      ("PICNIC_BASKET1", basket1Book) =
    ⟨[("CROISSANTS", [⟨"CROISSANTS", 10, 246⟩]), ("JAMS", [⟨"JAMS", 20, 123⟩]),
      ("DJEMBES", [⟨"DJEMBES", 30, 41⟩])],
     [("CROISSANTS", 10), ("JAMS", 20), ("DJEMBES", 30), ("PICNIC_BASKET1", 160)],
     some ("PICNIC_BASKET1", [⟨"PICNIC_BASKET1", 159, -41⟩])⟩ := by
  simp [picnicStep, midPrice, bestBid, bestAsk, pyMax?, pyMin?, setA,
    getA_nil, getA_cons, basket1Book, limitOf, POSITION_LIMITS]
  norm_num [min_def, (by decide : Int.fdiv 250 6 = 41), (by decide : Int.fdiv 350 3 = 116),
    (by decide : Int.fdiv 60 1 = 60)]

theorem picnicStepB2zero :
    picnicStep []
      ⟨[("CROISSANTS", [⟨"CROISSANTS", 10, 246⟩]), ("JAMS", [⟨"JAMS", 20, 123⟩]),
        ("DJEMBES", [⟨"DJEMBES", 30, 41⟩])],
       [("CROISSANTS", 10), ("JAMS", 20), ("DJEMBES", 30), ("PICNIC_BASKET1", 160)],
       some ("PICNIC_BASKET1", [⟨"PICNIC_BASKET1", 159, -41⟩])⟩
      ("PICNIC_BASKET2", basket2Book) =
    ⟨[("CROISSANTS", [⟨"CROISSANTS", 10, 246⟩]), ("JAMS", [⟨"JAMS", 20, 123⟩]),
      ("DJEMBES", [⟨"DJEMBES", 30, 41⟩])],
     [("CROISSANTS", 10), ("JAMS", 20), ("DJEMBES", 30), ("PICNIC_BASKET1", 160),
      ("PICNIC_BASKET2", 80)],
     some ("PICNIC_BASKET2", [])⟩ := by
  simp [picnicStep, midPrice, bestBid, bestAsk, pyMax?, pyMin?, setA,
    getA_nil, getA_cons, basket2Book]
  norm_num

/-! ## Claim theorems -/

/-- C1: the claim states that order quantities never push `|position +
quantity|` above the configured limit whenever `|position| <= limit` holds
before the tick. The PICNIC_BASKET1 leg of picnic_basket_2.py violates it:
the basket SELL is sized with the BUY capacity `limit - position`, so with
the basket short at its limit (position -60, within the limit 60) and a
profitable snapshot the engine emits a sell of 41 baskets, pushing the
basket position to -101, beyond the limit of 60. -/
theorem picnic_sizing_breaches_position_limit :
    getA (picnicRun picnicShortPositions picnicBooksB1Last) "PICNIC_BASKET1" =
      some [⟨"PICNIC_BASKET1", 159, -41⟩] ∧
    |(-60 : ℤ)| ≤ limitOf "PICNIC_BASKET1" ∧
    limitOf "PICNIC_BASKET1" < |(-60 : ℤ) + -41| := by
  refine ⟨?_, by decide, by decide⟩
  unfold picnicRun
  rw [show picnicBooksB1Last =
    [("CROISSANTS", croissantBook), ("JAMS", jamBook), ("DJEMBES", djembeBook)] ++
    [("PICNIC_BASKET1", basket1Book)] from rfl]
  rw [List.foldl_append, picnicFoldCJD, List.foldl_cons, List.foldl_nil, picnicStepB1short]
  simp [setA, getA_nil, getA_cons]

/-- C4: the claim states that a profitable PICNIC_BASKET1 snapshot makes the
engine emit the basket sell together with the component buys. The component
buys are emitted and sized as claimed (count 41 at zero positions, every
leg within its limit), but the `result[product] = orders` statement of
picnic_basket_2.py sits after the product loop, so the basket sell reaches
the returned dictionary only when PICNIC_BASKET1 happens to be the last
product iterated: with PICNIC_BASKET2 processed afterwards, the returned
dictionary has no PICNIC_BASKET1 entry at all. -/
theorem picnic_trailing_assignment_drops_basket_order :
    getA (picnicRun [] picnicBooksB2Last) "PICNIC_BASKET1" = none ∧
    getA (picnicRun [] picnicBooksB2Last) "CROISSANTS" = some [⟨"CROISSANTS", 10, 246⟩] ∧
    getA (picnicRun [] picnicBooksB2Last) "JAMS" = some [⟨"JAMS", 20, 123⟩] ∧
    getA (picnicRun [] picnicBooksB2Last) "DJEMBES" = some [⟨"DJEMBES", 30, 41⟩] ∧
    getA (picnicRun [] picnicBooksB1Last) "PICNIC_BASKET1" =
      some [⟨"PICNIC_BASKET1", 159, -41⟩] ∧
    (41 : ℤ) = min (min (min (limitOf "PICNIC_BASKET1" - 0)
        (Int.fdiv (limitOf "CROISSANTS" - 0) 6)) (Int.fdiv (limitOf "JAMS" - 0) 3))
        (Int.fdiv (limitOf "DJEMBES" - 0) 1) ∧
    |(0 : ℤ) + -41| ≤ limitOf "PICNIC_BASKET1" ∧
    |(0 : ℤ) + 246| ≤ limitOf "CROISSANTS" ∧
    |(0 : ℤ) + 123| ≤ limitOf "JAMS" ∧
    |(0 : ℤ) + 41| ≤ limitOf "DJEMBES" := by
  have hrun2 : picnicRun [] picnicBooksB2Last =
      [("CROISSANTS", [⟨"CROISSANTS", 10, 246⟩]), ("JAMS", [⟨"JAMS", 20, 123⟩]),
       ("DJEMBES", [⟨"DJEMBES", 30, 41⟩]), ("PICNIC_BASKET2", [])] := by
    unfold picnicRun
    rw [show picnicBooksB2Last =
      [("CROISSANTS", croissantBook), ("JAMS", jamBook), ("DJEMBES", djembeBook)] ++
      [("PICNIC_BASKET1", basket1Book), ("PICNIC_BASKET2", basket2Book)] from rfl]
    rw [List.foldl_append, picnicFoldCJD, List.foldl_cons, picnicStepB1zero,
      List.foldl_cons, picnicStepB2zero, List.foldl_nil]
    simp [setA]
  have hrun1 : picnicRun [] picnicBooksB1Last =
      [("CROISSANTS", [⟨"CROISSANTS", 10, 246⟩]), ("JAMS", [⟨"JAMS", 20, 123⟩]),
       ("DJEMBES", [⟨"DJEMBES", 30, 41⟩]),
       ("PICNIC_BASKET1", [⟨"PICNIC_BASKET1", 159, -41⟩])] := by
    unfold picnicRun
    rw [show picnicBooksB1Last =
      [("CROISSANTS", croissantBook), ("JAMS", jamBook), ("DJEMBES", djembeBook)] ++
      [("PICNIC_BASKET1", basket1Book)] from rfl]
    rw [List.foldl_append, picnicFoldCJD, List.foldl_cons, List.foldl_nil, picnicStepB1zero]
    simp [setA]
  refine ⟨?_, ?_, ?_, ?_, ?_, by decide, by decide, by decide, by decide, by decide⟩ <;>
    simp [hrun2, hrun1, getA_cons, getA_nil]

/-- C2: the single-instrument mean-reversion rule, with positive counterparty
volume at both touches (the snapshot invariant of the data model): a buy at
the best ask is emitted exactly when the ask is below the historical mean and
buy capacity `limit - position` is positive, sized
`min(limit - position, ask volume)`; a sell at the best bid exactly when the
bid is above the mean and `limit + position` is positive, sized
`min(limit + position, bid volume)`. -/
theorem resin_mean_reversion_rule (m : ℚ) (maxPosition pos : ℤ) (d : OrderDepth)
    (a b : ℚ) (va vb : ℤ)
    (ha : bestAsk d = some a) (hb : bestBid d = some b)
    (hva : volAt d.sell_orders a = -va) (hvb : volAt d.buy_orders b = vb)
    (hva0 : 0 < va) (hvb0 : 0 < vb) :
    resinOrders m maxPosition pos d =
      (if a < m ∧ 0 < maxPosition - pos then
        [⟨"RAINFOREST_RESIN", a, min (maxPosition - pos) va⟩] else []) ++
      (if m < b ∧ 0 < maxPosition + pos then
        [⟨"RAINFOREST_RESIN", b, -(min (maxPosition + pos) vb)⟩] else []) := by
  simp only [resinOrders, ha, hb, hva, hvb, neg_neg]
  congr 1
  · by_cases h : a < m ∧ 0 < maxPosition - pos
    · rw [if_pos h, if_pos h, if_pos (lt_min h.2 hva0)]
    · rw [if_neg h, if_neg h]
  · by_cases h : m < b ∧ 0 < maxPosition + pos
    · rw [if_pos h, if_pos h, if_pos (lt_min h.2 hvb0)]
    · rw [if_neg h, if_neg h]

/-- C2 witness: bid 9998 (5 available), ask 10002 (5 available), mean 10000,
position 0, limit 50 emits nothing; moving the ask to 9995 emits a buy of
min(50, 5) = 5 units at 9995. -/
theorem resin_mean_reversion_rule_witness :
    resinOrders 10000 50 0 resinBookNear = [⟨"RAINFOREST_RESIN", 9995, 5⟩] ∧
    resinOrders 10000 50 0 resinBookFar = [] := by
  constructor
  · rw [resin_mean_reversion_rule 10000 50 0 resinBookNear 9995 9998 5 5 rfl rfl
      (by norm_num [resinBookNear, volAt_cons, volAt_nil])
      (by norm_num [resinBookNear, volAt_cons, volAt_nil])
      (by norm_num) (by norm_num)]
    norm_num [min_def]
  · rw [resin_mean_reversion_rule 10000 50 0 resinBookFar 10002 9998 5 5 rfl rfl
      (by norm_num [resinBookFar, volAt_cons, volAt_nil])
      (by norm_num [resinBookFar, volAt_cons, volAt_nil])
      (by norm_num) (by norm_num)]
    norm_num

/-- C10: the RAINFOREST_RESIN tick decides orders from the historical mean
stored on the previous tick, and only writes the exponentially smoothed
mean `alpha*mid + (1-alpha)*mean` back to state; the second conjunct shows a
concrete book on which deciding with the freshly updated mean would emit
different orders, so the distinction is observable. -/
theorem resin_decides_on_stored_mean (alpha m : ℚ) (maxPosition pos : ℤ)
    (d : OrderDepth) (mid : ℚ) (hmid : midPrice d = some mid) :
    (resinStep alpha maxPosition (some m) pos d =
      some (resinOrders m maxPosition pos d, updatedMean alpha mid m)) ∧
    resinOrders 100 50 0 resinBookDiscr ≠
      resinOrders (updatedMean (1/20) (149/2) 100) 50 0 resinBookDiscr := by
  constructor
  · unfold resinStep
    rw [hmid]
    rfl
  · have h1 : resinOrders 100 50 0 resinBookDiscr = [⟨"RAINFOREST_RESIN", 99, 5⟩] := by
      norm_num [resinOrders, bestAsk, bestBid, pyMax?, pyMin?, resinBookDiscr,
        volAt_cons, volAt_nil, min_def]
    have h2 : resinOrders (updatedMean (1/20) (149/2) 100) 50 0 resinBookDiscr = [] := by
      norm_num [resinOrders, bestAsk, bestBid, pyMax?, pyMin?, resinBookDiscr,
        volAt_cons, volAt_nil, updatedMean]
    rw [h1, h2]
    simp

/-- C10 witness: instantiated at the discriminating book with stored mean 100
and alpha 1/20 (mid-price 149/2). -/
theorem resin_decides_on_stored_mean_witness :
    resinStep (1/20) 50 (some 100) 0 resinBookDiscr =
      some (resinOrders 100 50 0 resinBookDiscr, updatedMean (1/20) (149/2) 100) :=
  (resin_decides_on_stored_mean (1/20) 100 50 0 resinBookDiscr (149/2)
    (by norm_num [midPrice, bestBid, bestAsk, pyMax?, pyMin?, resinBookDiscr])).1

/-- C5: the claim states that in the bullish regime (short MA above long MA
beyond the threshold) the crossover rule emits only buy orders at the best
ask. The KELP branch does (second conjunct), but the SQUID_INK branch of the
same file emits a SELL at the best bid on the identical bullish input (first
conjunct): its buy/sell bodies are swapped relative to its own comments and
log messages. Input: short MA 340/3, long MA 100, threshold 0.00002, best
ask 101 below the short MA, position 0, limit 50, 5 units at each touch. -/
theorem squid_ink_bullish_branch_sells :
    squidInkStep (1/50000) 50 crossoverMemory 0 crossoverBook =
      some ([⟨"SQUID_INK", 99, -5⟩], ⟨[120, 120, 100], [100, 100, 100]⟩) ∧
    kelpStep (1/50000) 50 crossoverMemory 0 crossoverBook =
      some ([⟨"KELP", 101, 5⟩], ⟨[120, 120, 100], [100, 100, 100]⟩) := by
  constructor
  · norm_num [squidInkStep, midPrice, bestBid, bestAsk, pyMax?, pyMin?, crossoverMemory,
      crossoverBook, trimTo, maOf, volAt_cons, volAt_nil, min_def]
  · norm_num [kelpStep, midPrice, bestBid, bestAsk, pyMax?, pyMin?, crossoverMemory,
      crossoverBook, trimTo, maOf, volAt_cons, volAt_nil, min_def]

/-- C6 counterexample: the claim states the z-score divisor is
`max(dispersion, 1.0)`, hence never below 1.0. The source computes
`var ** 0.5 if var > 0 else 1.0`: starting from the fresh pair state
(mean = spread, var = 0) and observing spreads 0 then 1 with alpha = 0.1
gives variance 81/1000 > 0, whose square root (about 0.2846) is a divisor
strictly below 1.0. -/
theorem z_score_divisor_below_floor :
    0 < spread_var_update (1/10) 1 (spread_mean_update (1/10) 1 0) 0 ∧
    spread_std (spread_var_update (1/10) 1 (spread_mean_update (1/10) 1 0) 0) < 1 := by
  have hv : spread_var_update (1/10) 1 (spread_mean_update (1/10) 1 0) 0 = 81/1000 := by
    norm_num [spread_var_update, spread_mean_update]
  constructor
  · rw [hv]; norm_num
  · rw [hv]
    unfold spread_std
    rw [if_pos (by norm_num)]
    calc Real.sqrt ((81/1000 : ℚ) : ℝ) < Real.sqrt 1 :=
          Real.sqrt_lt_sqrt (by positivity) (by norm_num)
      _ = 1 := Real.sqrt_one

/-- C6 amended: the divisor is `sqrt(var)` when the updated variance is
positive and the fallback 1.0 otherwise; it is always strictly positive, so
the z-score never divides by zero; and on a constant spread series the pair
state stays at (mean = spread, variance = 0), the fallback is active, and
the z-score of every tick is exactly 0. -/
theorem z_score_guard_amended :
    (∀ v : ℚ, 0 < spread_std v) ∧
    (∀ alpha s : ℚ, ∀ n : ℕ, pair_trace alpha s n = (s, 0)) ∧
    (∀ s : ℚ, pair_z_score s s 0 = 0) := by
  refine ⟨?_, ?_, ?_⟩
  · intro v
    unfold spread_std
    by_cases h : 0 < v
    · rw [if_pos h]
      exact Real.sqrt_pos.mpr (by exact_mod_cast h)
    · rw [if_neg h]
      norm_num
  · intro alpha s n
    induction n with
    | zero => rfl
    | succ k ih =>
      have hm : spread_mean_update alpha s s = s := by
        unfold spread_mean_update; ring
      have hv : spread_var_update alpha s s 0 = 0 := by
        unfold spread_var_update; ring
      simp [pair_trace, ih, hm, hv]
  · intro s
    unfold pair_z_score spread_std
    rw [if_neg (lt_irrefl 0)]
    simp

/-- C8: when the strategy call of a tick raises, the simulator logs the
error and skips the tick: positions, cash, trade history, trader data and
PnL history all carry into the next tick unchanged, and the replay loop
keeps processing the remaining ticks (the run is never aborted, since the
loop is a total fold; the last conjunct shows it continues from the
unchanged state). -/
theorem strategy_exception_skips_tick (strat : StratFn) (normalize : String → String)
    (s : SimState) (t : Tick) (rest : List Tick) (e : String)
    (h : strat (mkTickState t s) = .error e) :
    (runTick strat normalize s t).current_position = s.current_position ∧
    (runTick strat normalize s t).cash = s.cash ∧
    (runTick strat normalize s t).trades_history = s.trades_history ∧
    (runTick strat normalize s t).trader_data = s.trader_data ∧
    (runTick strat normalize s t).pnl_history = s.pnl_history ∧
    (runTick strat normalize s t).log = s.log ++ [tickErrorMsg t.day t.timestamp e] ∧
    runSim strat normalize (t :: rest) s =
      runSim strat normalize rest (runTick strat normalize s t) := by
  refine ⟨?_, ?_, ?_, ?_, ?_, ?_, ?_⟩ <;> simp [runTick, runSim, h]

/-- C8 witness: a strategy that raises on every tick leaves position and
cash of a concrete state unchanged. -/
theorem strategy_exception_skips_tick_witness :
    (runTick alwaysRaise id simState0 tick0).current_position = simState0.current_position ∧
    (runTick alwaysRaise id simState0 tick0).cash = simState0.cash :=
  ⟨(strategy_exception_skips_tick alwaysRaise id simState0 tick0 [] "boom" rfl).1,
   (strategy_exception_skips_tick alwaysRaise id simState0 tick0 [] "boom" rfl).2.1⟩

/-- C9: two simulator runs over the same historical ticks, the same strategy
and the same starting state produce identical trade logs, cash and
positions. The embedded replay loop takes every input it reads as an
explicit argument — the historical tick list, the strategy, the
trader-data normalizer and the starting ledger — and touches no other data
source, so its output is a function of exactly those inputs; the claim is
formalised as that congruence. -/
theorem replay_determinism (strat : StratFn) (normalize : String → String)
    (ticks : List Tick) (s0 s1 : SimState) (h : s0 = s1) :
    (runSim strat normalize ticks s0).trades_history =
      (runSim strat normalize ticks s1).trades_history ∧
    (runSim strat normalize ticks s0).cash = (runSim strat normalize ticks s1).cash ∧
    (runSim strat normalize ticks s0).current_position =
      (runSim strat normalize ticks s1).current_position := by
  subst h
  exact ⟨rfl, rfl, rfl⟩

/-- C3: the mid-price is `(bid+ask)/2` when both sides exist (and lies
between them, reading the interval `[best_bid, best_ask]` with
`best_bid <= best_ask`), `ask*0.99` (strictly below the ask) with asks only,
`bid*1.01` (strictly above the bid) with bids only, for positive prices; and
with an empty book the product is skipped: the per-product step yields
nothing and the run loop leaves the result and the per-product trader state
untouched. -/
theorem mid_price_and_empty_book_skip :
    (∀ (d : OrderDepth) (a b : ℚ), bestBid d = some b → bestAsk d = some a → b ≤ a →
      midPrice d = some ((b + a) / 2) ∧ b ≤ (b + a) / 2 ∧ (b + a) / 2 ≤ a) ∧
    (∀ (d : OrderDepth) (a : ℚ), bestBid d = none → bestAsk d = some a → 0 < a →
      midPrice d = some (a * (99 / 100)) ∧ a * (99 / 100) < a) ∧
    (∀ (d : OrderDepth) (b : ℚ), bestBid d = some b → bestAsk d = none → 0 < b →
      midPrice d = some (b * (101 / 100)) ∧ b < b * (101 / 100)) ∧
    (∀ d : OrderDepth, bestBid d = none → bestAsk d = none →
      midPrice d = none ∧
      (∀ product orderSizeAt maxPosition window (stdThreshold : ℝ) pd pos,
        squidStep product orderSizeAt maxPosition window stdThreshold pd pos d = none) ∧
      (∀ orderSizeAt maxPosition window (stdThreshold : ℝ) td positions P,
        squidRun orderSizeAt maxPosition window stdThreshold td positions [(P, d)] =
          ([], td))) := by
  refine ⟨?_, ?_, ?_, ?_⟩
  · intro d a b hb ha hba
    unfold midPrice
    rw [hb, ha]
    refine ⟨rfl, by linarith, by linarith⟩
  · intro d a hb ha hpos
    unfold midPrice
    rw [hb, ha]
    exact ⟨rfl, by nlinarith⟩
  · intro d b hb ha hpos
    unfold midPrice
    rw [hb, ha]
    exact ⟨rfl, by nlinarith⟩
  · intro d hb ha
    have hmid : midPrice d = none := by unfold midPrice; rw [hb, ha]
    have hstep : ∀ product orderSizeAt maxPosition window (stdThreshold : ℝ) pd pos,
        squidStep product orderSizeAt maxPosition window stdThreshold pd pos d = none := by
      intro p os mp w st pd pos
      unfold squidStep
      rw [hmid]
    refine ⟨hmid, hstep, ?_⟩
    intro os mp w st td positions P
    simp [squidRun, hstep]

/-- C3 witness: the four book shapes instantiated at concrete snapshots
(two-sided bid 9 / ask 11, ask-only 11, bid-only 9, empty), and the run loop
on the empty book leaving result and trader data untouched. -/
theorem mid_price_and_empty_book_skip_witness :
    midPrice croissantBook = some 10 ∧
    midPrice askOnlyBook = some (1089/100) ∧
    midPrice bidOnlyBook = some (909/100) ∧
    midPrice emptyBook = none ∧
    squidRun (fun _ => 10) 50 30 1 [] [] [("KELP", emptyBook)] = ([], []) := by
  have h1 := (mid_price_and_empty_book_skip.1) croissantBook 11 9 rfl rfl (by norm_num)
  have h2 := (mid_price_and_empty_book_skip.2.1) askOnlyBook 11 rfl rfl (by norm_num)
  have h3 := (mid_price_and_empty_book_skip.2.2.1) bidOnlyBook 9 rfl rfl (by norm_num)
  have h4 := (mid_price_and_empty_book_skip.2.2.2) emptyBook rfl rfl
  refine ⟨?_, ?_, ?_, h4.1, ?_⟩
  · rw [h1.1]; norm_num
  · rw [h2.1]; norm_num
  · rw [h3.1]; norm_num
  · exact h4.2.2 (fun _ => 10) 50 30 1 [] [] "KELP"

open Classical in
/-- C7: a tick is classified in-pocket exactly when the trailing window is
full, its rolling standard deviation exceeds the activity threshold, and
the latest price lies within one rolling standard deviation of the rolling
mean; a series whose rolling standard deviation is at most the threshold is
never in-pocket; and the per-product step stores a pocket age equal to the
previous age plus one on an in-pocket tick and exactly 0 on any
not-in-pocket tick (in particular on the tick the classifier flips). -/
theorem stable_pocket_classifier :
    (∀ (prices : List ℚ) (window : ℕ) (thr : ℝ),
      is_in_stable_pocket prices window thr ↔
        (window ≤ prices.length ∧ thr < listStd (lastWindow prices window) ∧
         |(pyLast prices : ℝ) - (listMean (lastWindow prices window) : ℝ)| <
           listStd (lastWindow prices window))) ∧
    (∀ (prices : List ℚ) (window : ℕ) (thr : ℝ),
      listStd (lastWindow prices window) ≤ thr →
        ¬ is_in_stable_pocket prices window thr) ∧
    (∀ (product : String) (orderSizeAt : ℕ → ℤ) (maxPosition : ℤ) (window : ℕ)
       (stdThreshold : ℝ) (pd : ProdData) (pos : ℤ) (d : OrderDepth) (mid : ℚ),
      midPrice d = some mid →
      (squidStep product orderSizeAt maxPosition window stdThreshold pd pos d).map
          (fun r => r.2.time_in_pocket) =
        some (if is_in_stable_pocket (updatedHistory pd mid) window stdThreshold
              then pd.time_in_pocket + 1 else 0)) := by
  have hiff : ∀ (prices : List ℚ) (window : ℕ) (thr : ℝ),
      is_in_stable_pocket prices window thr ↔
        (window ≤ prices.length ∧ thr < listStd (lastWindow prices window) ∧
         |(pyLast prices : ℝ) - (listMean (lastWindow prices window) : ℝ)| <
           listStd (lastWindow prices window)) := by
    intro prices window thr
    unfold is_in_stable_pocket
    by_cases h : prices.length < window
    · rw [if_pos h]
      constructor
      · intro f; exact f.elim
      · rintro ⟨h1, -, -⟩
        exact absurd h (Nat.not_lt.mpr h1)
    · rw [if_neg h]
      have hle : window ≤ prices.length := Nat.le_of_not_lt h
      simp [hle]
  refine ⟨hiff, ?_, ?_⟩
  · intro prices w thr hstd hp
    rw [hiff] at hp
    exact absurd hp.2.1 (not_lt.mpr hstd)
  · intro p os mp w st pd pos d mid hmid
    unfold squidStep
    rw [hmid]
    simp only [Option.map]

/-- C7 witness: a one-element history has rolling standard deviation 0, so
with threshold 1 it is never in-pocket, and a step from pocket age 5 on such
a history stores age 0. -/
theorem stable_pocket_classifier_witness :
    ¬ is_in_stable_pocket [100] 30 1 ∧
    (squidStep "X" (fun _ => 10) 50 30 1 ⟨[], 5, True⟩ 0 crossoverBook).map
      (fun r => r.2.time_in_pocket) = some 0 := by
  have hvar : listVar (lastWindow [(100 : ℚ)] 30) = 0 := by
    norm_num [lastWindow, listVar, listMean]
  have hstd : listStd (lastWindow [(100 : ℚ)] 30) ≤ 1 := by
    unfold listStd
    rw [hvar]
    norm_num
  have hnp : ¬ is_in_stable_pocket [100] 30 1 :=
    stable_pocket_classifier.2.1 [100] 30 1 hstd
  refine ⟨hnp, ?_⟩
  have h := stable_pocket_classifier.2.2 "X" (fun _ => 10) 50 30 1 ⟨[], 5, True⟩ 0
    crossoverBook 100 (by norm_num [midPrice, bestBid, bestAsk, pyMax?, pyMin?, crossoverBook])
  rw [h]
  have hh : updatedHistory ⟨[], 5, True⟩ 100 = [100] := by
    norm_num [updatedHistory]
  rw [hh, if_neg hnp]

/-- C9 witness: the two runs over a concrete one-tick history coincide. -/
theorem replay_determinism_witness :
    (runSim alwaysRaise id [tick0] simState0).trades_history =
      (runSim alwaysRaise id [tick0] simState0).trades_history ∧
    (runSim alwaysRaise id [tick0] simState0).cash =
      (runSim alwaysRaise id [tick0] simState0).cash ∧
    (runSim alwaysRaise id [tick0] simState0).current_position =
      (runSim alwaysRaise id [tick0] simState0).current_position :=
  replay_determinism alwaysRaise id [tick0] simState0 simState0 rfl

end Prosperity
